import Mathlib

/-!
Shallow embedding of the buildtest executor core (`buildtest/executors/slurm.py`
and `buildtest/executors/local.py`) and proofs about its specified behaviour.

External effects (running `sbatch`/`sacct`/`scancel`/the shell, the builder's
timer, the filesystem) are modelled as explicit inputs and event lists; Python
exceptions are modelled as explicit error flags; a Python attribute that may be
unset is modelled as an `Option` field.  Python's `str.split(sep)` is only ever
used with the single-character separators `";"`, `"|"`, `":"` in this code, so
it is embedded at the character-list level.
-/

/-- Python `str.split(sep)` for a single-character separator, on a character
list: splits at every occurrence of `c`; the empty list yields `[[]]`, matching
Python's `"".split(sep) == [""]`. -/
def charSplit (c : Char) : List Char → List (List Char)
  | [] => [[]]
  | a :: as =>
    let r := charSplit c as
    if a = c then [] :: r else (a :: r.headD []) :: r.tail

/-- Python `s.split(sep)` for a one-character `sep`, as used by the source with
`";"`, `"|"` and `":"`. -/
def pySplit1 (c : Char) (s : String) : List String :=
  (charSplit c s.data).map List.asString

/-- Python `c in s` / `re.search(c, s)` for a single-character pattern, as used
by `dispatch`'s `re.search(";", parse_jobid)`. -/
def pyContains (c : Char) (s : String) : Bool :=
  s.data.contains c

/-- Python `s.rstrip()`: drop trailing whitespace. -/
def pyRstrip (s : String) : String :=
  List.asString (s.data.reverse.dropWhile Char.isWhitespace).reverse

/-- Python `"".join(lines)`, the source's way of flattening captured output. -/
def pyJoin (lines : List String) : String :=
  String.join lines

/-- Decimal value of a digit list (already validated by `pyInt?`). -/
def digitsToNat (l : List Char) : Nat :=
  l.foldl (fun n c => n * 10 + (c.toNat - 48)) 0

/-- Python `int(s)`: surrounding whitespace is ignored, an optional sign is
followed by a nonempty run of decimal digits; anything else raises
`ValueError`, modelled as `none`.  (Python additionally allows `_` digit
grouping, which this code never receives.) -/
def pyInt? (s : String) : Option Int :=
  let t := (s.data.dropWhile Char.isWhitespace).reverse.dropWhile Char.isWhitespace |>.reverse
  let core : Int × List Char :=
    match t with
    | '-' :: rest => (-1, rest)
    | '+' :: rest => (1, rest)
    | l => (1, l)
  if core.2 ≠ [] ∧ core.2.all Char.isDigit then
    some (core.1 * digitsToNat core.2)
  else
    none

/-- Python `l[0]` on a split result; `str.split` never returns an empty list,
so the default is never consulted. -/
def pyFirst (l : List String) : String :=
  l.headD ""

/-- Python truthiness of an optional integer (`None` and `0` are falsy). -/
def pyTruthyInt : Option Int → Bool
  | none => false
  | some n => n != 0

/-- Python `a or b` on optional integers. -/
def pyOrInt (a b : Option Int) : Option Int :=
  if pyTruthyInt a then a else b

/-- Python truthiness of an optional string (`None` and `""` are falsy). -/
def pyTruthyStr : Option String → Bool
  | none => false
  | some s => s != ""

/-- Python `a or b` on optional strings. -/
def pyOrStr (a b : Option String) : Option String :=
  if pyTruthyStr a then a else b

/-!
## The Slurm job state machine (`buildtest/executors/slurm.py`, class `SlurmJob`)

The base class `Job` (`buildtest/executors/job.py`, not part of the staged
sources) only stores the job id; the mutable attributes `_state`, `_exitcode`
and `_workdir` are written by `SlurmJob.poll`, so they are modelled as `Option`
fields (`none` = not yet assigned).
-/

structure SlurmJob where
  jobid : Int
  cluster : Option String := none
  _state : Option String := none
  _exitcode : Option Int := none
  _workdir : Option String := none
deriving DecidableEq, Repr

/-- The captured stdout of the two `sacct` queries one `SlurmJob.poll` call
issues (the state query and the ExitCode,Workdir query), an input from the
external scheduler. -/
structure PollResponse where
  stateQueryOutput : List String
  exitQueryOutput : List String
deriving DecidableEq, Repr

def SlurmJob.is_pending (j : SlurmJob) : Bool := j._state == some "PENDING"

def SlurmJob.is_running (j : SlurmJob) : Bool := j._state == some "RUNNING"

def SlurmJob.is_suspended (j : SlurmJob) : Bool := j._state == some "SUSPENDED"

def SlurmJob.is_cancelled (j : SlurmJob) : Bool := j._state == some "CANCELLED"

def SlurmJob.is_complete (j : SlurmJob) : Bool := j._state == some "COMPLETED"

def SlurmJob.is_failed (j : SlurmJob) : Bool := j._state == some "FAILED"

def SlurmJob.is_out_of_memory (j : SlurmJob) : Bool := j._state == some "OUT_OF_MEMORY"

def SlurmJob.is_timeout (j : SlurmJob) : Bool := j._state == some "TIMEOUT"

/-- `SlurmJob.complete`: `any([is_complete, is_failed, is_out_of_memory,
is_timeout])`. -/
def SlurmJob.complete (j : SlurmJob) : Bool :=
  j.is_complete || j.is_failed || j.is_out_of_memory || j.is_timeout

/-- `SlurmJob.poll`: sets `_state` from the joined, right-stripped state-query
output, then parses the ExitCode,Workdir query: `exitcode, workdir =
out.split("|")` (a `ValueError` unless the split yields exactly two parts),
`_exitcode = int(exitcode.split(":")[0])` (a `ValueError` on a non-numeric
field), `_workdir = workdir`.  Returns the job after the mutations that
happened, paired with `true` when a `ValueError` escaped — the `_state`
assignment precedes the fallible parsing, so it survives a raising call. -/
def SlurmJob.poll (j : SlurmJob) (r : PollResponse) : SlurmJob × Bool :=
  let j1 := { j with _state := some (pyRstrip (pyJoin r.stateQueryOutput)) }
  let out := pyRstrip (pyJoin r.exitQueryOutput)
  match pySplit1 '|' out with
  | [exitcode, workdir] =>
    match pyInt? (pyFirst (pySplit1 ':' exitcode)) with
    | some n => ({ j1 with _exitcode := some n, _workdir := some workdir }, false)
    | none => (j1, true)
  | _ => (j1, true)

/-- `SlurmJob.cancel`: runs `scancel` (no effect on the local fields), re-polls
(`self.poll()` — `r` is that re-poll's response), and only then executes
`self._state = "CANCELLED"`; the re-poll is not guarded by `try`/`except`, so a
`ValueError` it raises propagates out of `cancel` and skips the final
assignment. -/
def SlurmJob.cancel (j : SlurmJob) (r : PollResponse) : SlurmJob × Bool :=
  let p := j.poll r
  if p.2 then p
  else ({ p.1 with _state := some "CANCELLED" }, false)

/-- The fixed, ordered field list of `SlurmJob.gather`'s `sacct` query. -/
def sacct_fields : List String :=
  ["Account", "AllocNodes", "AllocTRES", "ConsumedEnergyRaw", "CPUTimeRaw",
   "Elapsed", "End", "ExitCode", "JobID", "JobName", "NCPUS", "NNodes", "QOS",
   "ReqGRES", "ReqMem", "ReqNodes", "ReqTRES", "Start", "State", "Submit",
   "UID", "User", "WorkDir"]

/-- `SlurmJob.gather`: joins the query output, splits it on `"|"` and builds
the record dict by inserting `zip(sacct_fields, out)` pairs in order; the
fields are pairwise distinct, so the dict is the positional association list.
`zip` stops at the shorter of the two lists. -/
def SlurmJob.gather (output : List String) : List (String × String) :=
  let out := pySplit1 '|' (pyJoin output)
  List.zip sacct_fields out

/-!
## The Slurm executor (`buildtest/executors/slurm.py`, class `SlurmExecutor`)
-/

/-- The configuration fields of a `SlurmExecutor` relevant to its behaviour:
`maxpendtime` is the constructor's `max_pend_time` argument (the command-line
override), the others are set by `load`. -/
structure SlurmExecutor where
  launcher : Option String := none
  launcher_opts : Option (List String) := none
  cluster : Option String := none
  partition : Option String := none
  qos : Option String := none
  account : Option String := none
  maxpendtime : Option Int := none
  max_pend_time : Option Int := none
deriving DecidableEq, Repr

/-- The named executor instance's section of the buildtest settings
(`self._settings`); `get` on a missing key gives `None` = `none`. -/
structure ExecutorSettings where
  launcher : Option String := none
  options : Option (List String) := none
  cluster : Option String := none
  partition : Option String := none
  qos : Option String := none
  account : Option String := none
  max_pend_time : Option Int := none
deriving DecidableEq, Repr

/-- The `executors.defaults` section of the site configuration, read through
`deep_get` (`none` when absent). -/
structure DefaultsSettings where
  launcher : Option String := none
  account : Option String := none
  max_pend_time : Option Int := none
deriving DecidableEq, Repr

/-- `SlurmExecutor.load`: each field is resolved from the named instance's
settings, with Python `or` fallbacks to the defaults section; `max_pend_time`
is `self.maxpendtime or self._settings.get("max_pend_time") or
deep_get(..., "defaults", "max_pend_time")`. -/
def SlurmExecutor.load (maxpendtime : Option Int) (st : ExecutorSettings)
    (dfl : DefaultsSettings) : SlurmExecutor :=
  { launcher := pyOrStr st.launcher dfl.launcher
    launcher_opts := st.options
    cluster := st.cluster
    partition := st.partition
    qos := st.qos
    account := pyOrStr st.account dfl.account
    maxpendtime := maxpendtime
    max_pend_time :=
      pyOrInt (pyOrInt maxpendtime st.max_pend_time) dfl.max_pend_time }

/-- `SlurmExecutor.dispatch`, after `builder.run()` has produced the captured
output lines: `parse_jobid = command.get_output()[-1]` (an `IndexError` on
empty output, modelled as `none`); if `re.search(";", parse_jobid)` matches,
`builder.metadata["jobid"] = int(parse_jobid.split(";")[0])`, otherwise
`int(parse_jobid)` (a non-numeric token raises `ValueError`, modelled as
`none`); then `builder.job = SlurmJob(builder.metadata["jobid"],
self.cluster)`.  Returns the stored metadata job id and the constructed job. -/
def SlurmExecutor.dispatch (ex : SlurmExecutor) (outputLines : List String) :
    Option (Int × SlurmJob) :=
  match outputLines.getLast? with
  | none => none
  | some parse_jobid =>
    match pyInt?
        (if pyContains ';' parse_jobid then pyFirst (pySplit1 ';' parse_jobid)
         else parse_jobid) with
    | none => none
    | some jobid => some (jobid, { jobid := jobid, cluster := ex.cluster })

/-- The builder-facing actions `SlurmExecutor.poll` can take, in the order it
takes them. -/
inductive PollEvent
  | timerStop
  | jobCancel
  | diagnostic
  | timerStart
deriving DecidableEq, Repr

/-- `SlurmExecutor.poll`, after the delegated `builder.job.poll()` has
refreshed `job` and returned normally (a `ValueError` inside that refresh
would propagate before the state check, with no timer action at all): when the
refreshed job is pending or suspended, `builder.stop()` runs first; when
`int(builder.duration) > self.max_pend_time` (`duration` is that truncated
value, `max_pend_time` the resolved budget), `builder.job.cancel()` is invoked
— `rc` is the response its unguarded internal re-poll gets.  When that re-poll
raises, the `ValueError` propagates out of `poll`, skipping the diagnostic
`print` and `builder.start()`; when `cancel` returns normally, the diagnostic
is printed and then `builder.start()` restarts the timer — the restart is not
conditioned on the budget check, so it also runs right after a successful
cancellation.  Any other refreshed state leaves the timer untouched.  Returns
the builder-facing events in order, paired with `true` when an exception
escaped `poll`. -/
def SlurmExecutor.poll (max_pend_time : Int) (job : SlurmJob) (duration : Int)
    (rc : PollResponse) : List PollEvent × Bool :=
  if job.is_pending || job.is_suspended then
    if duration > max_pend_time then
      if (job.cancel rc).2 then
        ([PollEvent.timerStop, PollEvent.jobCancel], true)
      else
        ([PollEvent.timerStop, PollEvent.jobCancel, PollEvent.diagnostic,
          PollEvent.timerStart], false)
    else ([PollEvent.timerStop, PollEvent.timerStart], false)
  else ([], false)

/-!
## The local executor (`buildtest/executors/local.py`, class `LocalExecutor`)
-/

/-- A `LocalExecutor` after `load`: `shell` is the first word of the
configured shell; `shell_type` is only assigned by `check`, so a fresh
executor carries `none` (the attribute does not exist yet). -/
structure LocalExecutor where
  name : String
  shell : String
  shell_type : Option String := none
deriving DecidableEq, Repr

def bashShells : List String :=
  ["sh", "bash", "zsh", "/bin/sh", "/bin/bash", "/bin/zsh"]

def cshShells : List String := ["csh", "tcsh", "/bin/csh", "/bin/tcsh"]

def pythonShells : List String := ["python"]

/-- `LocalExecutor.check`: `sys.exit` (modelled as `none`) when
`shutil.which(self.shell)` finds nothing (`shellOnPath` is that lookup's
success); otherwise `self.shell_type` is assigned `"bash"`, `"csh"` or
`"python"` by the recognised-shell table — and left untouched when no branch
matches. -/
def LocalExecutor.check (ex : LocalExecutor) (shellOnPath : Bool) :
    Option LocalExecutor :=
  if !shellOnPath then none
  else some
    (if ex.shell ∈ bashShells then { ex with shell_type := some "bash" }
     else if ex.shell ∈ cshShells then { ex with shell_type := some "csh" }
     else if ex.shell ∈ pythonShells then { ex with shell_type := some "python" }
     else ex)

/-- The side effects `LocalExecutor.run` performs once past its guards, in
source order: `os.chdir(builder.stage_dir)`, `builder.start()`, the
`BuildTestCommand` execution, `builder.stop()`, the `<name>.out` and
`<name>.err` writes of `write_testresults`, `builder.copy_stage_files()`. -/
inductive RunEvent
  | chdir
  | timerStart
  | commandRun
  | timerStop
  | writeOutFile
  | writeErrFile
  | copyStageFiles
deriving DecidableEq, Repr

/-- How a `LocalExecutor.run` call ends. -/
inductive RunOutcome
  | exited (msg : String)
  | attributeError
  | completed
deriving DecidableEq, Repr

/-- The `sys.exit` message of `LocalExecutor.run`'s shell-family guard. -/
def shellMismatchMessage (bName exName exShell bShellName : String) : String :=
  "[" ++ bName ++ "]: we have a shell mismatch with executor: " ++ exName ++
    ". The executor shell: " ++ exShell ++ " is not compatible with shell: " ++
    bShellName ++ " found in buildspec"

/-- `LocalExecutor.run`: first `self.check()` (its `sys.exit` aborts the run);
then `if self.shell_type != builder.shell_type: sys.exit(...)` — when `check`
assigned no `shell_type`, reading the attribute raises `AttributeError`
instead; only past that guard do the side effects run, in source order.
`bName`, `bShellType` and `bShellName` are `builder.name`,
`builder.shell_type` and `builder.shell.name`. -/
def LocalExecutor.run (ex : LocalExecutor) (shellOnPath : Bool) (bName : String)
    (bShellType : String) (bShellName : String) : RunOutcome × List RunEvent :=
  match ex.check shellOnPath with
  | none => (RunOutcome.exited ("Unable to find shell: " ++ ex.shell), [])
  | some ex1 =>
    match ex1.shell_type with
    | none => (RunOutcome.attributeError, [])
    | some st =>
      if st ≠ bShellType then
        (RunOutcome.exited (shellMismatchMessage bName ex1.name ex1.shell bShellName),
         [])
      else
        (RunOutcome.completed,
         [RunEvent.chdir, RunEvent.timerStart, RunEvent.commandRun,
          RunEvent.timerStop, RunEvent.writeOutFile, RunEvent.writeErrFile,
          RunEvent.copyStageFiles])

/-!
## Helper lemmas
-/

theorem data_asString (l : List Char) : (List.asString l).data = l := rfl

theorem asString_data (s : String) : List.asString s.data = s := rfl

theorem charSplit_of_not_mem {c : Char} {l : List Char} (h : c ∉ l) :
    charSplit c l = [l] := by
  induction l with
  | nil => rfl
  | cons a as ih =>
    have ha : ¬a = c := fun e => h (e ▸ List.mem_cons_self a as)
    have h' : c ∉ as := fun m => h (List.mem_cons_of_mem a m)
    simp [charSplit, ha, ih h']

theorem charSplit_append {c : Char} {l2 : List Char} (l1 : List Char)
    (h : c ∉ l1) : charSplit c (l1 ++ c :: l2) = l1 :: charSplit c l2 := by
  induction l1 with
  | nil => simp [charSplit]
  | cons a as ih =>
    have ha : ¬a = c := fun e => h (e ▸ List.mem_cons_self a as)
    have h' : c ∉ as := fun m => h (List.mem_cons_of_mem a m)
    simp [charSplit, ha, ih h']

theorem zip_map_fst_take {α β : Type} (l1 : List α) (l2 : List β)
    (h : l2.length ≤ l1.length) :
    (l1.zip l2).map Prod.fst = l1.take l2.length := by
  induction l1 generalizing l2 with
  | nil => simp
  | cons a as ih =>
    cases l2 with
    | nil => simp
    | cons b bs => simpa using ih bs (by simpa using h)

/-!
## Claim theorems
-/

/-- C5: for every `SlurmJob` and every state value, `complete()` returns true
if and only if the state is one of `COMPLETED`, `FAILED`, `OUT_OF_MEMORY`,
`TIMEOUT` (hence false for `PENDING`, `RUNNING`, `SUSPENDED`, `CANCELLED`). -/
theorem complete_iff_terminal (j : SlurmJob) (s : String)
    (h : j._state = some s) :
    j.complete = true ↔
      s = "COMPLETED" ∨ s = "FAILED" ∨ s = "OUT_OF_MEMORY" ∨ s = "TIMEOUT" := by
  unfold SlurmJob.complete SlurmJob.is_complete SlurmJob.is_failed
    SlurmJob.is_out_of_memory SlurmJob.is_timeout
  rw [h]
  simp [beq_iff_eq, or_assoc]

/-- Witness for C5: a job in state `TIMEOUT` satisfies `complete()`. -/
theorem complete_iff_terminal_witness :
    ({ jobid := 1, _state := some "TIMEOUT" } : SlurmJob).complete = true :=
  (complete_iff_terminal { jobid := 1, _state := some "TIMEOUT" } "TIMEOUT"
    rfl).mpr (by decide)

/-- C2 (amended): after a refresh leaving the job `PENDING`/`SUSPENDED`, the
builder's timer is stopped; `Job.cancel()` is invoked exactly when the
truncated duration exceeds the budget; when `cancel` returns normally the
diagnostic is emitted and the timer is restarted — so the restart also
happens in the cancelled case, not only otherwise; when `cancel`'s unguarded
re-poll raises, the exception propagates out of `poll` and the diagnostic and
restart are skipped; within budget, the timer is stopped and restarted; any
other refreshed state leaves the timer untouched. -/
theorem poll_pending_policy (mpt : Int) (job : SlurmJob) (d : Int)
    (rc : PollResponse) :
    ((job.is_pending || job.is_suspended) = true →
        PollEvent.timerStop ∈ (SlurmExecutor.poll mpt job d rc).1
      ∧ (d > mpt → PollEvent.jobCancel ∈ (SlurmExecutor.poll mpt job d rc).1)
      ∧ (d > mpt → ((job.cancel rc).2 = false →
          SlurmExecutor.poll mpt job d rc =
            ([PollEvent.timerStop, PollEvent.jobCancel, PollEvent.diagnostic,
              PollEvent.timerStart], false)))
      ∧ (d > mpt → ((job.cancel rc).2 = true →
          SlurmExecutor.poll mpt job d rc =
            ([PollEvent.timerStop, PollEvent.jobCancel], true)))
      ∧ (¬d > mpt →
          SlurmExecutor.poll mpt job d rc =
            ([PollEvent.timerStop, PollEvent.timerStart], false)))
    ∧ ((job.is_pending || job.is_suspended) = false →
        SlurmExecutor.poll mpt job d rc = ([], false)) := by
  unfold SlurmExecutor.poll
  constructor
  · intro hps
    refine ⟨?_, ?_, ?_, ?_, ?_⟩
    · by_cases hd : d > mpt
      · by_cases hcf : (job.cancel rc).2 <;> simp [hps, hd, hcf]
      · simp [hps, hd]
    · intro hd
      by_cases hcf : (job.cancel rc).2 <;> simp [hps, hd, hcf]
    · intro hd hcf
      simp [hps, hd, hcf]
    · intro hd hcf
      simp [hps, hd, hcf]
    · intro hd
      simp [hps, hd]
  · intro hps
    simp [hps]

/-- Counterexample to C2 as stated: with budget 30 and duration 31 a pending
job is cancelled (the cancel re-poll here returns well-formed output, so
`cancel` returns normally) AND the timer is still restarted — the restart is
not reserved for the not-cancelled case. -/
theorem poll_cancel_still_restarts_timer :
    PollEvent.jobCancel ∈
        (SlurmExecutor.poll 30 { jobid := 1, _state := some "PENDING" } 31
          ⟨["PENDING"], ["0:0|/tmp/x"]⟩).1
    ∧ PollEvent.timerStart ∈
        (SlurmExecutor.poll 30 { jobid := 1, _state := some "PENDING" } 31
          ⟨["PENDING"], ["0:0|/tmp/x"]⟩).1 := by
  decide

/-- C3 (amended): when `cancel()` returns without an exception, the job's
state is `CANCELLED`. -/
theorem cancel_forces_cancelled (j : SlurmJob) (r : PollResponse)
    (h : (j.cancel r).2 = false) :
    ((j.cancel r).1)._state = some "CANCELLED" := by
  unfold SlurmJob.cancel at h ⊢
  by_cases hp : (j.poll r).2 = true
  · simp [hp] at h
  · simp at hp
    simp [hp]

/-- Witness for C3's amended theorem at a well-formed re-poll response. -/
theorem cancel_forces_cancelled_witness :
    ((SlurmJob.cancel { jobid := 1 } ⟨["PENDING"], ["0:0|/tmp/x"]⟩).1)._state =
      some "CANCELLED" :=
  cancel_forces_cancelled { jobid := 1 } ⟨["PENDING"], ["0:0|/tmp/x"]⟩
    (by decide)

/-- Counterexample to C3 as stated: when the best-effort re-poll inside
`cancel()` gets malformed output (here an empty exit/workdir row), the
`ValueError` propagates, `cancel` does not return normally, and the state is
the re-poll's first-query state (`RUNNING`), not `CANCELLED`. -/
theorem cancel_failed_repoll_not_cancelled :
    (SlurmJob.cancel { jobid := 1 } ⟨["RUNNING"], [""]⟩).2 = true
    ∧ ((SlurmJob.cancel { jobid := 1 } ⟨["RUNNING"], [""]⟩).1)._state =
        some "RUNNING"
    ∧ ((SlurmJob.cancel { jobid := 1 } ⟨["RUNNING"], [""]⟩).1)._state ≠
        some "CANCELLED" := by
  decide

/-- C9 (amended): the resolved pending-time budget follows Python `or`
precedence over the override, the named instance's setting and the defaults
section — a level wins only when it is truthy (non-`None` and nonzero), so a
zero override falls through to the next level. -/
theorem load_max_pend_time_resolution (mpt : Option Int)
    (st : ExecutorSettings) (dfl : DefaultsSettings) :
    (SlurmExecutor.load mpt st dfl).max_pend_time =
      if pyTruthyInt mpt then mpt
      else if pyTruthyInt st.max_pend_time then st.max_pend_time
      else dfl.max_pend_time := by
  unfold SlurmExecutor.load pyOrInt
  by_cases h1 : pyTruthyInt mpt <;>
    by_cases h2 : pyTruthyInt st.max_pend_time <;> simp [h1, h2]

/-- Counterexample to C9 as stated: an explicitly supplied override of `0`
does NOT win — resolution falls through to the named instance's setting. -/
theorem load_zero_override_ignored :
    (SlurmExecutor.load (some 0) { max_pend_time := some 10 }
        { max_pend_time := some 30 }).max_pend_time = some 10
    ∧ (SlurmExecutor.load (some 0) { max_pend_time := some 10 }
        { max_pend_time := some 30 }).max_pend_time ≠ some 0 := by
  decide

/-- C1: every successful `dispatch` takes the last emitted output line as the
job-identifier token; when the token contains `;` the stored job id is the
integer parsed from the substring before the `;`, otherwise the integer parsed
from the whole token, and the constructed `SlurmJob` carries that id together
with the executor's configured cluster. -/
theorem dispatch_jobid_parsing (ex : SlurmExecutor) (lines : List String)
    (tok : String) (jobid : Int) (job : SlurmJob)
    (hlast : lines.getLast? = some tok)
    (hdisp : ex.dispatch lines = some (jobid, job)) :
    (if pyContains ';' tok then
        pyInt? (pyFirst (pySplit1 ';' tok)) = some jobid
     else pyInt? tok = some jobid)
    ∧ job.jobid = jobid ∧ job.cluster = ex.cluster := by
  unfold SlurmExecutor.dispatch at hdisp
  rw [hlast] at hdisp
  by_cases hc : pyContains ';' tok
  · simp only [hc, if_true] at hdisp ⊢
    cases hint : pyInt? (pyFirst (pySplit1 ';' tok)) with
    | none => rw [hint] at hdisp; cases hdisp
    | some n =>
      rw [hint] at hdisp
      simp only [Option.some.injEq, Prod.mk.injEq] at hdisp
      obtain ⟨h1, h2⟩ := hdisp
      subst h1; subst h2
      exact ⟨rfl, rfl, rfl⟩
  · simp only [hc, Bool.false_eq_true, if_false] at hdisp ⊢
    cases hint : pyInt? tok with
    | none => rw [hint] at hdisp; cases hdisp
    | some n =>
      rw [hint] at hdisp
      simp only [Option.some.injEq, Prod.mk.injEq] at hdisp
      obtain ⟨h1, h2⟩ := hdisp
      subst h1; subst h2
      exact ⟨rfl, rfl, rfl⟩

/-- Witness for C1 at the token `"123;cori"` with configured cluster `"cX"`. -/
theorem dispatch_jobid_parsing_witness :
    (if pyContains ';' "123;cori" then
        pyInt? (pyFirst (pySplit1 ';' "123;cori")) = some 123
     else pyInt? "123;cori" = some 123)
    ∧ ({ jobid := 123, cluster := some "cX" } : SlurmJob).jobid = 123
    ∧ ({ jobid := 123, cluster := some "cX" } : SlurmJob).cluster =
        ({ cluster := some "cX" } : SlurmExecutor).cluster :=
  dispatch_jobid_parsing { cluster := some "cX" } ["submitted", "123;cori"]
    "123;cori" 123 { jobid := 123, cluster := some "cX" } rfl (by decide)

/-- C4: when the executor's resolved shell family differs from the builder's
declared shell family, `run` exits with the mismatch diagnostic and performs
no side effect: no directory change, no timer start, no Command Runner
invocation, no output or error file. -/
theorem run_shell_mismatch_aborts (ex ex1 : LocalExecutor) (onPath : Bool)
    (bName bShellType bShellName st : String)
    (hcheck : ex.check onPath = some ex1)
    (hst : ex1.shell_type = some st)
    (hne : st ≠ bShellType) :
    ex.run onPath bName bShellType bShellName =
      (RunOutcome.exited
          (shellMismatchMessage bName ex1.name ex1.shell bShellName),
       []) := by
  unfold LocalExecutor.run
  rw [hcheck]
  simp only []
  rw [hst]
  simp [hne]

/-- Witness for C4: a `bash` executor against a builder declaring `python`. -/
theorem run_shell_mismatch_aborts_witness :
    LocalExecutor.run { name := "e1", shell := "bash" } true "t1" "python"
        "python3" =
      (RunOutcome.exited (shellMismatchMessage "t1" "e1" "bash" "python3"),
       []) :=
  run_shell_mismatch_aborts { name := "e1", shell := "bash" }
    { name := "e1", shell := "bash", shell_type := some "bash" } true "t1"
    "python" "python3" "bash" (by decide) rfl (by decide)

/-- C10: `check()` assigns `shell_type` only for the recognised shells
(`bash`/`csh`/`python` families); for any other shell binary that exists on
PATH, `check` returns the executor unchanged with `shell_type` still unset,
and the subsequent comparison in `run` hits the unset attribute
(`AttributeError`) instead of producing the clean mismatch diagnostic. -/
theorem check_unrecognized_shell_attrerror (s nm bName bShellType bShellName :
      String)
    (h1 : s ∉ bashShells) (h2 : s ∉ cshShells) (h3 : s ∉ pythonShells) :
    ({ name := nm, shell := s } : LocalExecutor).check true =
        some { name := nm, shell := s }
    ∧ ({ name := nm, shell := s } : LocalExecutor).run true bName bShellType
        bShellName = (RunOutcome.attributeError, [])
    ∧ (∀ b ∈ bashShells,
        ({ name := nm, shell := b } : LocalExecutor).check true =
          some { name := nm, shell := b, shell_type := some "bash" })
    ∧ (∀ c ∈ cshShells,
        ({ name := nm, shell := c } : LocalExecutor).check true =
          some { name := nm, shell := c, shell_type := some "csh" })
    ∧ (∀ p ∈ pythonShells,
        ({ name := nm, shell := p } : LocalExecutor).check true =
          some { name := nm, shell := p, shell_type := some "python" }) := by
  refine ⟨?_, ?_, ?_, ?_, ?_⟩
  · unfold LocalExecutor.check
    simp [h1, h2, h3]
  · unfold LocalExecutor.run LocalExecutor.check
    simp [h1, h2, h3]
  · intro b hb
    unfold LocalExecutor.check
    simp [hb]
  · intro c hc
    have hcb : c ∉ bashShells := by fin_cases hc <;> decide
    unfold LocalExecutor.check
    simp [hc, hcb]
  · intro p hp
    have hpb : p ∉ bashShells := by fin_cases hp; decide
    have hpc : p ∉ cshShells := by fin_cases hp; decide
    unfold LocalExecutor.check
    simp [hp, hpb, hpc]

/-- Witness for C10 at the unrecognised-but-installed shell `"ksh"`. -/
theorem check_unrecognized_shell_attrerror_witness :
    ({ name := "e", shell := "ksh" } : LocalExecutor).check true =
        some { name := "e", shell := "ksh" }
    ∧ ({ name := "e", shell := "ksh" } : LocalExecutor).run true "t" "bash"
        "bash" = (RunOutcome.attributeError, [])
    ∧ (∀ b ∈ bashShells,
        ({ name := "e", shell := b } : LocalExecutor).check true =
          some { name := "e", shell := b, shell_type := some "bash" })
    ∧ (∀ c ∈ cshShells,
        ({ name := "e", shell := c } : LocalExecutor).check true =
          some { name := "e", shell := c, shell_type := some "csh" })
    ∧ (∀ p ∈ pythonShells,
        ({ name := "e", shell := p } : LocalExecutor).check true =
          some { name := "e", shell := p, shell_type := some "python" }) :=
  check_unrecognized_shell_attrerror "ksh" "e" "t" "bash" "bash" (by decide)
    (by decide) (by decide)

/-- C8 (amended): `SlurmJob.poll` completes without an exception exactly when
the exit/workdir query output splits on `|` into precisely two fields and the
first field's prefix before any `:` parses as an integer; an empty or
pipe-less row raises. -/
theorem poll_wellformed_iff (j : SlurmJob) (r : PollResponse) :
    (j.poll r).2 = false ↔
      ∃ ec wd, pySplit1 '|' (pyRstrip (pyJoin r.exitQueryOutput)) = [ec, wd]
        ∧ (pyInt? (pyFirst (pySplit1 ':' ec))).isSome = true := by
  unfold SlurmJob.poll
  rcases hs : pySplit1 '|' (pyRstrip (pyJoin r.exitQueryOutput)) with
    _ | ⟨ec, _ | ⟨wd, _ | _⟩⟩
  · simp [hs]
  · simp [hs]
  · cases hint : pyInt? (pyFirst (pySplit1 ':' ec)) with
    | none => simp [hs, hint]
    | some n => simp [hs, hint]
  · simp [hs]

/-- Counterexample to C8 as stated: on an empty exit/workdir row, and on a row
without a pipe character, `poll()` raises a `ValueError` rather than
completing. -/
theorem poll_raises_on_empty_output :
    (SlurmJob.poll { jobid := 1 } ⟨["RUNNING"], []⟩).2 = true
    ∧ (SlurmJob.poll { jobid := 1 } ⟨["RUNNING"], ["no pipe here"]⟩).2 =
        true := by
  decide

/-- C6: when the terminal-record row yields fewer pipe-delimited values than
the 23 `sacct` fields, `gather()` pairs fields with values positionally up to
the shorter length; the trailing fields are absent from the mapping, and no
error is raised (`gather` is total). -/
theorem gather_short_row_truncates (output : List String)
    (hshort : (pySplit1 '|' (pyJoin output)).length < sacct_fields.length) :
    (SlurmJob.gather output).map Prod.fst =
        sacct_fields.take (pySplit1 '|' (pyJoin output)).length
    ∧ (SlurmJob.gather output).map Prod.snd = pySplit1 '|' (pyJoin output)
    ∧ ∀ f ∈ sacct_fields.drop (pySplit1 '|' (pyJoin output)).length,
        ∀ v, (f, v) ∉ SlurmJob.gather output := by
  have hg : SlurmJob.gather output =
      List.zip sacct_fields (pySplit1 '|' (pyJoin output)) := rfl
  have hle : (pySplit1 '|' (pyJoin output)).length ≤ sacct_fields.length :=
    le_of_lt hshort
  rw [hg]
  refine ⟨zip_map_fst_take _ _ hle, List.map_snd_zip _ _ hle, ?_⟩
  intro f hf v hmem
  have hfst : f ∈ (List.zip sacct_fields (pySplit1 '|' (pyJoin output))).map
      Prod.fst :=
    List.mem_map.mpr ⟨(f, v), hmem, rfl⟩
  rw [zip_map_fst_take _ _ hle] at hfst
  have hnodup : sacct_fields.Nodup := by decide
  have happ :
      (sacct_fields.take (pySplit1 '|' (pyJoin output)).length ++
        sacct_fields.drop (pySplit1 '|' (pyJoin output)).length).Nodup := by
    rw [List.take_append_drop]; exact hnodup
  exact (List.nodup_append.mp happ).2.2 hfst hf

/-- Witness for C6: a row with three values against the 23-field list. -/
theorem gather_short_row_truncates_witness :
    (SlurmJob.gather ["a|b|c"]).map Prod.fst =
        sacct_fields.take (pySplit1 '|' (pyJoin ["a|b|c"])).length
    ∧ (SlurmJob.gather ["a|b|c"]).map Prod.snd = pySplit1 '|' (pyJoin ["a|b|c"])
    ∧ ∀ f ∈ sacct_fields.drop (pySplit1 '|' (pyJoin ["a|b|c"])).length,
        ∀ v, (f, v) ∉ SlurmJob.gather ["a|b|c"] :=
  gather_short_row_truncates ["a|b|c"] (by decide)

/-- C7: on an exit/workdir query row of the form `<ec>:<sig>|<path>` or
`<ec>|<path>` where `<ec>` parses as the integer `N`, `poll()` completes and
sets the exit code to `N` — the colon-delimited signal suffix is discarded —
and the work directory to the substring after the pipe. -/
theorem poll_parses_exitcode_workdir (j : SlurmJob) (r : PollResponse)
    (ecStr sig path : String) (N : Int)
    (hnum : pyInt? ecStr = some N)
    (hec1 : ':' ∉ ecStr.data) (hec2 : '|' ∉ ecStr.data)
    (hsig : '|' ∉ sig.data) (hpath : '|' ∉ path.data)
    (hout : pyRstrip (pyJoin r.exitQueryOutput) =
          ecStr ++ ":" ++ sig ++ "|" ++ path
        ∨ pyRstrip (pyJoin r.exitQueryOutput) = ecStr ++ "|" ++ path) :
    (j.poll r).2 = false
    ∧ ((j.poll r).1)._exitcode = some N
    ∧ ((j.poll r).1)._workdir = some path := by
  rcases hout with h | h
  · have hdata : (ecStr ++ ":" ++ sig ++ "|" ++ path).data =
        (ecStr.data ++ ':' :: sig.data) ++ '|' :: path.data := by
      simp [String.data_append]
    have hnotmem : '|' ∉ ecStr.data ++ ':' :: sig.data := by
      intro hm
      rcases List.mem_append.mp hm with hm1 | hm1
      · exact hec2 hm1
      · rcases List.mem_cons.mp hm1 with hm2 | hm2
        · cases hm2
        · exact hsig hm2
    have hsplit : pySplit1 '|' (ecStr ++ ":" ++ sig ++ "|" ++ path) =
        [List.asString (ecStr.data ++ ':' :: sig.data), path] := by
      unfold pySplit1
      rw [hdata, charSplit_append _ hnotmem, charSplit_of_not_mem hpath]
      simp [asString_data]
    have hec : pySplit1 ':' (List.asString (ecStr.data ++ ':' :: sig.data)) =
        ecStr :: pySplit1 ':' sig := by
      unfold pySplit1
      rw [data_asString, charSplit_append _ hec1]
      simp [asString_data]
    have hfirst : pyFirst (pySplit1 ':'
        (List.asString (ecStr.data ++ ':' :: sig.data))) = ecStr := by
      rw [hec]; rfl
    simp only [SlurmJob.poll]
    rw [h, hsplit]
    simp [hfirst, hnum]
  · have hdata : (ecStr ++ "|" ++ path).data =
        ecStr.data ++ '|' :: path.data := by
      simp [String.data_append]
    have hsplit : pySplit1 '|' (ecStr ++ "|" ++ path) = [ecStr, path] := by
      unfold pySplit1
      rw [hdata, charSplit_append _ hec2, charSplit_of_not_mem hpath]
      simp [asString_data]
    have hfirst : pyFirst (pySplit1 ':' ecStr) = ecStr := by
      unfold pySplit1
      rw [charSplit_of_not_mem hec1]
      simp [asString_data]
      rfl
    simp only [SlurmJob.poll]
    rw [h, hsplit]
    simp [hfirst, hnum]

/-- Witness for C7 at the row `"0:0|/tmp/x"`. -/
theorem poll_parses_exitcode_workdir_witness :
    (SlurmJob.poll { jobid := 4567 } ⟨["COMPLETED"], ["0:0|/tmp/x"]⟩).2 = false
    ∧ ((SlurmJob.poll { jobid := 4567 } ⟨["COMPLETED"], ["0:0|/tmp/x"]⟩
        ).1)._exitcode = some 0
    ∧ ((SlurmJob.poll { jobid := 4567 } ⟨["COMPLETED"], ["0:0|/tmp/x"]⟩
        ).1)._workdir = some "/tmp/x" :=
  poll_parses_exitcode_workdir { jobid := 4567 } ⟨["COMPLETED"], ["0:0|/tmp/x"]⟩
    "0" "0" "/tmp/x" 0 (by decide) (by decide) (by decide) (by decide)
    (by decide) (Or.inl (by decide))
